import Mathlib

set_option maxRecDepth 100000

/-!
Shallow embedding of the sports question-answering pipeline in `sofascore.py`
(class `SportsQA`), together with proofs about its classifier, knowledge-base
responder, LLM gateway initialization and top-level answer orchestration.

Conventions of the embedding:
* Python strings are Lean `String`s; `str.lower`, `str.title` and substring
  tests (`in`) are embedded as executable functions on the character list
  (`String.data`).  All string data in the program is ASCII, where these
  agree with Python's semantics.
* The remote LLM and the console are the only effectful collaborators.  They
  are passed in as explicit oracles: the outcome of each connection probe in
  `setup_llm`, and the per-prompt result of `llm.invoke` in `answer_question`.
* Python exceptions are values of `Except String`: a raised exception is
  `Except.error`, a normal return is `Except.ok`.  A `try/except` block is a
  `match` on the body's result.
-/

namespace SportsQA

/-- Python `str.lower` restricted to ASCII (all program data is ASCII). -/
def py_lower (s : String) : String := ⟨s.data.map Char.toLower⟩

/-- One step of Python `str.title`: the boolean records whether the previous
character was alphabetic; an alphabetic character after a non-alphabetic one
is upper-cased, later letters of a word are lower-cased. -/
def py_title_go : Bool → List Char → List Char
  | _, [] => []
  | prevAlpha, c :: cs =>
      (if c.isAlpha then (if prevAlpha then c.toLower else c.toUpper) else c)
        :: py_title_go c.isAlpha cs

/-- Python `str.title` restricted to ASCII. -/
def py_title (s : String) : String := ⟨py_title_go false s.data⟩

/-- `needle` occurs as a contiguous sublist of `hay`
(Python's `needle in hay` on strings, viewed on character lists). -/
def contains_sub : List Char → List Char → Bool
  | needle, [] => needle.isEmpty
  | needle, c :: rest => needle.isPrefixOf (c :: rest) || contains_sub needle rest

/-- Python `needle in hay` substring test on strings. -/
def containsSubstr (hay needle : String) : Bool := contains_sub needle.data hay.data

/-- Python `s.replace('_', ' ')` (single-character pattern). -/
def replace_underscores (s : String) : String :=
  ⟨s.data.map (fun c => if c = '_' then ' ' else c)⟩

/-- One entry of `SportsQA.SPORTS_KNOWLEDGE`: the ordered metric list and the
`key_concepts` dict in its insertion order (`sofascore.py` lines 13–39). -/
structure KnowledgeEntry where
  metrics : List String
  key_concepts : List (String × String)
deriving DecidableEq

/-- `SPORTS_KNOWLEDGE['basketball']` (`sofascore.py` lines 14–22). -/
def basketball_entry : KnowledgeEntry where
  metrics := ["points", "rebounds", "assists", "steals", "blocks",
              "field_goals_made", "field_goals_attempted"]
  key_concepts :=
    [("scoring", "Basketball scoring involves field goals (2 points), three-pointers (3 points), and free throws (1 point)"),
     ("efficiency", "Efficiency in basketball is measured through shooting percentages, points per attempt, and overall impact"),
     ("defense", "Defensive success is measured through blocks, steals, and opponent's shooting percentage")]

/-- `SPORTS_KNOWLEDGE['football_nfl']` (`sofascore.py` lines 23–30). -/
def football_nfl_entry : KnowledgeEntry where
  metrics := ["passing_yards", "rushing_yards", "touchdowns", "interceptions", "sacks"]
  key_concepts :=
    [("quarterback", "Success factors include accuracy, decision-making, leadership, arm strength, and ability to read defenses"),
     ("offense", "Effective offense combines passing and rushing strategies with good play-calling"),
     ("defense", "Strong defense requires tackling ability, coverage skills, and defensive coordination")]

/-- `SPORTS_KNOWLEDGE['tennis']` (`sofascore.py` lines 31–38). -/
def tennis_entry : KnowledgeEntry where
  metrics := ["aces", "double_faults", "first_serve_percentage", "break_points_saved"]
  key_concepts :=
    [("roland_garros", "Unique for its clay courts, which affect play style, requiring endurance and tactical play"),
     ("serving", "Effective serving combines power, accuracy, and variety to keep opponents off-balance"),
     ("strategy", "Success requires adapting to different surfaces, managing energy, and exploiting opponent weaknesses")]

/-- The `SPORTS_KNOWLEDGE` class attribute, as an association list in the
dict's insertion order. -/
def SPORTS_KNOWLEDGE : List (String × KnowledgeEntry) :=
  [("basketball", basketball_entry),
   ("football_nfl", football_nfl_entry),
   ("tennis", tennis_entry)]

/-- The keyword table of `_get_sport_from_question`
(`sofascore.py` lines 78–82), in dict insertion order. -/
def sport_keywords : List (String × List String) :=
  [("basketball", ["basketball", "nba", "wnba", "points", "rebounds", "court"]),
   ("football_nfl", ["football", "nfl", "quarterback", "touchdown", "yards"]),
   ("tennis", ["tennis", "roland garros", "serve", "court", "grand slam"])]

/-- The `matches` dict of `_get_sport_from_question` (lines 85–86): for each
sport, `sum(1 for kw in kws if kw in question)` on the already lower-cased
question. -/
def keyword_matches (q : String) : List (String × Nat) :=
  sport_keywords.map (fun p => (p.1, p.2.countP (fun kw => containsSubstr q kw)))

/-- Python `max(items, key=lambda x: x[1])`: the first element with the
strictly greatest second component; `none` on the empty list (Python raises). -/
def max_first : List (String × Nat) → Option (String × Nat)
  | [] => none
  | x :: xs => some (xs.foldl (fun acc y => if acc.2 < y.2 then y else acc) x)

/-- `SportsQA._get_sport_from_question` (`sofascore.py` lines 73–89). -/
def get_sport_from_question (question : String) : String :=
  let ms := keyword_matches (py_lower question)
  if ms.any (fun p => p.2 != 0) then
    match max_first ms with
    | some best => best.1
    | none => ""  -- unreachable: the keyword table is nonempty
  else "basketball"

/-- The fixed long-form quarterback answer
(`sofascore.py` lines 98–124, a triple-quoted string). -/
def quarterback_answer : String :=
  "\nA successful NFL quarterback requires several key attributes:\n\n" ++
  "1. Physical Skills:\n   - Strong and accurate arm\n   - Mobility in the pocket\n   - Quick release\n\n" ++
  "2. Mental Attributes:\n   - Decision-making under pressure\n   - Ability to read defenses\n   - Leadership qualities\n   - Game management skills\n\n" ++
  "3. Technical Abilities:\n   - Precise ball placement\n   - Understanding of offensive schemes\n   - Ability to make pre-snap adjustments\n\n" ++
  "4. Intangibles:\n   - Work ethic and preparation\n   - Clutch performance\n   - Team leadership\n   - Communication skills\n\n" ++
  "Success also depends heavily on the supporting cast, including offensive line protection, receiver quality, and coaching system.\n"

/-- The fixed long-form Roland-Garros answer
(`sofascore.py` lines 126–152, a triple-quoted string). -/
def roland_garros_answer : String :=
  "\nRoland Garros is unique among tennis tournaments for several key reasons:\n\n" ++
  "1. Clay Court Surface:\n   - Only Grand Slam played on clay\n   - Slower pace of play\n   - Different playing style required\n   - Tests endurance and patience\n\n" ++
  "2. Historical Significance:\n   - One of the four Grand Slams\n   - Rich history dating back to 1891\n   - Named after a French aviation pioneer\n\n" ++
  "3. Playing Characteristics:\n   - Longer rallies\n   - Higher bounces\n   - Favors defensive players\n   - Tests physical endurance\n\n" ++
  "4. Unique Challenges:\n   - Sliding techniques required\n   - Different strategy needed\n   - Weather can significantly impact play\n\n" ++
  "The tournament is particularly challenging for players who specialize in faster surfaces, making it one of the most demanding tennis events.\n"

/-- The five bullet items of the fixed "Success Factors" block of the generic
synthesis (`sofascore.py` lines 168–172). -/
def success_factors : List String :=
  ["Physical skills and athleticism", "Technical proficiency",
   "Strategic understanding", "Mental toughness", "Consistent performance"]

/-- The generic synthesized answer (the `else` branch of
`_get_knowledge_base_response`, `sofascore.py` lines 153–173): an f-string
concatenating the header, the comma-joined title-cased metric list, the
space-joined concept explanations in dict insertion order, and the fixed
success-factors block. -/
def generic_response (sport : String) (knowledge : KnowledgeEntry) : String :=
  "\nKey aspects of " ++ replace_underscores sport ++ ":\n\n" ++
  "1. Important Metrics:\n   " ++
  py_title (String.intercalate ", " knowledge.metrics) ++
  "\n\n2. Key Concepts:\n   " ++
  String.intercalate " " (knowledge.key_concepts.map (fun c => c.2)) ++
  "\n\n3. Success Factors:\n" ++
  String.intercalate "\n" (success_factors.map (fun f => "   - " ++ f)) ++ "\n"

/-- `SportsQA._get_knowledge_base_response` (`sofascore.py` lines 91–173).
The dict access `SPORTS_KNOWLEDGE[sport]` on line 94 raises `KeyError` for a
sport outside the table; that exception is modelled by `none`. -/
def get_knowledge_base_response (question sport : String) : Option String :=
  let q := py_lower question
  match (SPORTS_KNOWLEDGE.find? (fun p => p.1 == sport)).map (fun p => p.2) with
  | none => none
  | some knowledge =>
    if containsSubstr q "quarterback" && sport == "football_nfl" then
      some quarterback_answer
    else if containsSubstr q "roland garros" && sport == "tennis" then
      some roland_garros_answer
    else
      some (generic_response sport knowledge)

/-- Outcome of one attempt of the `setup_llm` loop body (`sofascore.py`
lines 53–60): constructing `ChatOpenAI` and invoking `"Test connection"`.
`connError` is a raised `APIConnectionError`; `otherError` is any other
raised `Exception`. -/
inductive AttemptOutcome
  | success
  | connError
  | otherError
deriving DecidableEq

/-- The `self.llm` attribute.  `unset` models the attribute never having been
assigned (accessing it raises `AttributeError`); `ready` models a bound
`ChatOpenAI` model whose remote behaviour is the oracle `invoke` (mapping a
prompt to the response content, or to a raised exception); `disabled` models
`self.llm = None`. -/
inductive LLMField
  | unset
  | ready (invoke : String → Except String String)
  | disabled

/-- The `for attempt in range(max_retries)` loop of `SportsQA.setup_llm`
(`sofascore.py` lines 52–71), recursing on the number `fuel` of remaining
iterations, so `attempt + fuel = max_retries` throughout and the Python guard
`attempt < max_retries - 1` is `0 < fuel`.  Returns the final `self.llm`
together with the list of `time.sleep` delays performed (line 64,
`2 ** attempt`). -/
def setup_llm_loop (probe : Nat → AttemptOutcome) (invoke : String → Except String String) :
    Nat → Nat → LLMField → LLMField × List Nat
  | 0, _, llm => (llm, [])
  | fuel + 1, attempt, llm =>
    match probe attempt with
    | .success => (.ready invoke, [])
    | .connError =>
      if 0 < fuel then
        let rest := setup_llm_loop probe invoke fuel (attempt + 1) llm
        (rest.1, 2 ^ attempt :: rest.2)
      else
        (.disabled, [])
    | .otherError => (.disabled, [])

/-- `SportsQA.setup_llm` (`sofascore.py` lines 50–71), starting from the
state in which `self.llm` has never been assigned. -/
def setup_llm (probe : Nat → AttemptOutcome) (invoke : String → Except String String)
    (max_retries : Nat := 3) : LLMField × List Nat :=
  setup_llm_loop probe invoke max_retries 0 .unset

/-- Text before the embedded knowledge-base response in the apology f-string
of `answer_question` (`sofascore.py` lines 197–204). -/
def apology_pre : String :=
  "\nI apologize, but I encountered an error while processing your question.\n" ++
  "Here's a general response based on common sports knowledge:\n\n"

/-- Text after the embedded knowledge-base response in the apology f-string
of `answer_question` (`sofascore.py` lines 197–204). -/
def apology_post : String :=
  "\n\nFeel free to rephrase your question or ask about specific aspects you're interested in.\n"

/-- The body of the outer `try` of `SportsQA.answer_question`
(`sofascore.py` lines 177–194).  Returns the result of the `try` body — a
returned string or a raised exception — together with the list of prompts
passed to `self.llm.invoke` (to count remote calls).  The inner
`try/except Exception` around the invocation (lines 184–191) is the `match`
on `invoke prompt`: on any exception it falls through to the knowledge-base
response of line 194.  Accessing `self.llm` while unset raises
`AttributeError`; `SPORTS_KNOWLEDGE[sport]` on a sport outside the table
raises `KeyError`. -/
def answer_body (llm : LLMField) (q : String) : Except String String × List String :=
  let sport := get_sport_from_question q
  match llm with
  | .unset => (.error "AttributeError: llm", [])
  | .ready invoke =>
    let prompt := "Answer this sports question about " ++ sport ++ ": " ++ q
    (match invoke prompt with
     | .ok content => (.ok content, [prompt])
     | .error _ =>
       match get_knowledge_base_response q sport with
       | some s => (.ok s, [prompt])
       | none => (.error ("KeyError: " ++ sport), [prompt]))
  | .disabled =>
    match get_knowledge_base_response q sport with
    | some s => (.ok s, [])
    | none => (.error ("KeyError: " ++ sport), [])

/-- `SportsQA.answer_question` (`sofascore.py` lines 175–204).  The outer
`except Exception` (lines 196–204) turns any exception raised by the body
into the apology message embedding a freshly recomputed knowledge-base
response for the same question and recomputed (identical) sport; if that
recomputation itself raises, the exception escapes `answer_question`. -/
def answer_question (llm : LLMField) (q : String) : Except String String × List String :=
  match answer_body llm q with
  | (.ok s, tr) => (.ok s, tr)
  | (.error _, tr) =>
    match get_knowledge_base_response q (get_sport_from_question q) with
    | some kb => (.ok (apology_pre ++ kb ++ apology_post), tr)
    | none => (.error ("KeyError: " ++ get_sport_from_question q), tr)

/-- Number of bullet lines: occurrences of a line break followed by the
three-space-indented `"- "` bullet marker used by the generated answers. -/
def bullet_lines (s : String) : Nat :=
  (s.data.tails.filter (fun t => ("\n   - ".data).isPrefixOf t)).length

end SportsQA

namespace SportsQA

/-- The keyword table has exactly the three sports, in insertion order. -/
theorem keyword_matches_shape (q : String) :
    ∃ cb cf ct, keyword_matches q = [("basketball", cb), ("football_nfl", cf), ("tennis", ct)] :=
  ⟨_, _, _, rfl⟩

/-- Evaluation of the classifier in terms of the three match counts:
`max` over the dict items returns the first item attaining the maximal
count, and the all-zero case falls to the `else 'basketball'` branch. -/
theorem get_sport_eval (question : String) (cb cf ct : Nat)
    (h : keyword_matches (py_lower question) =
      [("basketball", cb), ("football_nfl", cf), ("tennis", ct)]) :
    get_sport_from_question question =
      if cb = 0 ∧ cf = 0 ∧ ct = 0 then "basketball"
      else if cf ≤ cb ∧ ct ≤ cb then "basketball"
      else if cb < cf ∧ ct ≤ cf then "football_nfl"
      else "tennis" := by
  simp only [get_sport_from_question, h, List.any_cons, List.any_nil, max_first, List.foldl]
  split_ifs <;> simp_all [bne_iff_ne] <;> omega

/-- The classifier only ever returns one of the three table sports. -/
theorem get_sport_mem (question : String) :
    get_sport_from_question question = "basketball" ∨
    get_sport_from_question question = "football_nfl" ∨
    get_sport_from_question question = "tennis" := by
  obtain ⟨cb, cf, ct, h⟩ := keyword_matches_shape (py_lower question)
  rw [get_sport_eval question cb cf ct h]
  split_ifs <;> simp

/-- A list is a prefix of itself followed by anything. -/
theorem isPrefixOf_self_append (l t : List Char) : l.isPrefixOf (l ++ t) = true := by
  induction l with
  | nil => simp [List.isPrefixOf]
  | cons c cs ih => simp [List.isPrefixOf, ih]

/-- A sublist surrounded by arbitrary material is found by `contains_sub`. -/
theorem contains_sub_append (n pre post : List Char) :
    contains_sub n (pre ++ n ++ post) = true := by
  induction pre with
  | nil =>
    rw [List.nil_append]
    cases n with
    | nil =>
      cases post with
      | nil => rfl
      | cons c cs => rfl
    | cons c cs =>
      have h1 : contains_sub (c :: cs) ((c :: cs) ++ post) =
          ((c :: cs).isPrefixOf ((c :: cs) ++ post) || contains_sub (c :: cs) (cs ++ post)) :=
        rfl
      rw [h1, isPrefixOf_self_append, Bool.true_or]
  | cons p ps ih =>
    have h2 : contains_sub n ((p :: ps) ++ n ++ post) =
        (n.isPrefixOf ((p :: ps) ++ n ++ post) || contains_sub n (ps ++ n ++ post)) := rfl
    rw [h2, ih, Bool.or_true]

/-- A string concatenation contains its middle part as a substring. -/
theorem containsSubstr_append (a b c : String) : containsSubstr (a ++ b ++ c) b = true := by
  unfold containsSubstr
  rw [String.data_append, String.data_append]
  exact contains_sub_append b.data a.data c.data

/-- When neither trigger condition of `_get_knowledge_base_response` holds,
the responder returns the generic synthesis for the sport's table entry. -/
theorem kbresp_generic (q sport : String) (entry : KnowledgeEntry)
    (hfind : (SPORTS_KNOWLEDGE.find? (fun p => p.1 == sport)).map (fun p => p.2) = some entry)
    (hq : (containsSubstr (py_lower q) "quarterback" && sport == "football_nfl") = false)
    (hr : (containsSubstr (py_lower q) "roland garros" && sport == "tennis") = false) :
    get_knowledge_base_response q sport = some (generic_response sport entry) := by
  simp only [get_knowledge_base_response, hfind, hq, hr]
  simp

/-- For any of the three table sports, the responder returns an answer
(no `KeyError`) whatever the question is. -/
theorem kbresp_total (q sport : String)
    (hs : sport = "basketball" ∨ sport = "football_nfl" ∨ sport = "tennis") :
    ∃ kb, get_knowledge_base_response q sport = some kb := by
  rcases hs with h | h | h <;> subst h <;>
    simp only [get_knowledge_base_response,
      show (SPORTS_KNOWLEDGE.find? (fun p => p.1 == "basketball")).map (fun p => p.2) =
        some basketball_entry from rfl,
      show (SPORTS_KNOWLEDGE.find? (fun p => p.1 == "football_nfl")).map (fun p => p.2) =
        some football_nfl_entry from rfl,
      show (SPORTS_KNOWLEDGE.find? (fun p => p.1 == "tennis")).map (fun p => p.2) =
        some tennis_entry from rfl] <;>
    split_ifs <;> exact ⟨_, rfl⟩

/-- The responder always answers for the sport the classifier produced. -/
theorem kbresp_classified_total (q : String) :
    ∃ kb, get_knowledge_base_response q (get_sport_from_question q) = some kb :=
  kbresp_total q _ (get_sport_mem q)

/-- Once `self.llm` is assigned (a model or `None`), the `try` body of
`answer_question` returns normally on every question. -/
theorem answer_body_ok (llm : LLMField) (q : String) (h : llm ≠ LLMField.unset) :
    ∃ s, (answer_body llm q).1 = Except.ok s := by
  cases llm with
  | unset => exact absurd rfl h
  | ready invoke =>
    cases hinv : invoke ("Answer this sports question about " ++
        get_sport_from_question q ++ ": " ++ q) with
    | ok s => exact ⟨s, by simp [answer_body, hinv]⟩
    | error e =>
      obtain ⟨kb, hkb⟩ := kbresp_classified_total q
      exact ⟨kb, by simp [answer_body, hinv, hkb]⟩
  | disabled =>
    obtain ⟨kb, hkb⟩ := kbresp_classified_total q
    exact ⟨kb, by simp [answer_body, hkb]⟩

/-- The quarterback trigger: first branch of `_get_knowledge_base_response`. -/
theorem kbresp_qb (q : String) (h : containsSubstr (py_lower q) "quarterback" = true) :
    get_knowledge_base_response q "football_nfl" = some quarterback_answer := by
  simp only [get_knowledge_base_response,
    show (SPORTS_KNOWLEDGE.find? (fun p => p.1 == "football_nfl")).map (fun p => p.2) =
      some football_nfl_entry from rfl]
  simp [h]

/-- The Roland-Garros trigger: second branch of `_get_knowledge_base_response`;
the quarterback branch cannot fire for sport `tennis`. -/
theorem kbresp_rg (q : String) (h : containsSubstr (py_lower q) "roland garros" = true) :
    get_knowledge_base_response q "tennis" = some roland_garros_answer := by
  simp only [get_knowledge_base_response,
    show (SPORTS_KNOWLEDGE.find? (fun p => p.1 == "tennis")).map (fun p => p.2) =
      some tennis_entry from rfl]
  simp [h, show ("tennis" == "football_nfl") = false from rfl]

/-- Any run of the `setup_llm` retry loop that performs at least one attempt
leaves `self.llm` assigned: either a bound model or `None`. -/
theorem setup_llm_loop_sets (probe : Nat → AttemptOutcome)
    (invoke : String → Except String String) (llm : LLMField) :
    ∀ fuel attempt, 0 < fuel →
      (setup_llm_loop probe invoke fuel attempt llm).1 = LLMField.disabled ∨
      ∃ f, (setup_llm_loop probe invoke fuel attempt llm).1 = LLMField.ready f := by
  intro fuel
  induction fuel with
  | zero => intro attempt h; omega
  | succ n ih =>
    intro attempt _
    cases hp : probe attempt with
    | success => exact Or.inr ⟨invoke, by simp [setup_llm_loop, hp]⟩
    | connError =>
      by_cases hn : 0 < n
      · rcases ih (attempt + 1) hn with h1 | ⟨f, h1⟩
        · exact Or.inl (by simp [setup_llm_loop, hp, hn, h1])
        · exact Or.inr ⟨f, by simp [setup_llm_loop, hp, hn, h1]⟩
      · exact Or.inl (by simp [setup_llm_loop, hp, hn])
    | otherError => exact Or.inl (by simp [setup_llm_loop, hp])

/-- Claim C1, counterexample: on the question `"football tennis"` the
football_nfl and tennis counts are tied for the highest count (1 each,
basketball 0), yet `_get_sport_from_question` returns `"football_nfl"`,
not the claimed default `"basketball"`. -/
theorem classifier_tie_counterexample :
    keyword_matches (py_lower "football tennis") =
      [("basketball", 0), ("football_nfl", 1), ("tennis", 1)] ∧
    get_sport_from_question "football tennis" = "football_nfl" ∧
    get_sport_from_question "football tennis" ≠ "basketball" := by decide

/-- Claim C1 (amended): with zero keyword matches for every sport the
classifier returns `"basketball"`; otherwise it returns the first sport in
dict insertion order (basketball, football_nfl, tennis) attaining the
maximal count — so a tie only defaults to basketball when basketball is
among the tied leaders. -/
theorem classifier_default_and_tiebreak (question : String) (cb cf ct : Nat)
    (h : keyword_matches (py_lower question) =
      [("basketball", cb), ("football_nfl", cf), ("tennis", ct)]) :
    (cb = 0 ∧ cf = 0 ∧ ct = 0 → get_sport_from_question question = "basketball") ∧
    (cf ≤ cb ∧ ct ≤ cb → get_sport_from_question question = "basketball") ∧
    (cb < cf ∧ ct ≤ cf → get_sport_from_question question = "football_nfl") ∧
    (cb < ct ∧ cf < ct → get_sport_from_question question = "tennis") := by
  rw [get_sport_eval question cb cf ct h]
  refine ⟨fun hc => ?_, fun hc => ?_, fun hc => ?_, fun hc => ?_⟩ <;>
    split_ifs <;> first | rfl | omega

/-- Claim C1 witness: on `"tennis nfl"` the counts are 0/1/1, a
football_nfl–tennis tie above basketball, and the tie-break picks
football_nfl. -/
theorem classifier_default_and_tiebreak_witness :
    get_sport_from_question "tennis nfl" = "football_nfl" :=
  (classifier_default_and_tiebreak "tennis nfl" 0 1 1 (by decide)).2.2.1 (by omega)

/-- Claim C2: `answer_question` always returns a string — for every question
and every state of `self.llm` (including oracle-chosen remote failures) the
result is `Except.ok` — and whenever the body of the outer `try` raises, the
returned string is the apology message embedding the knowledge-base response
for the same (question, classified sport) pair. -/
theorem answer_question_total_and_apology (llm : LLMField) (q : String) :
    (∃ s, (answer_question llm q).1 = Except.ok s) ∧
    (∀ e tr, answer_body llm q = (Except.error e, tr) →
      ∃ kb, get_knowledge_base_response q (get_sport_from_question q) = some kb ∧
        answer_question llm q = (Except.ok (apology_pre ++ kb ++ apology_post), tr) ∧
        containsSubstr (apology_pre ++ kb ++ apology_post) kb = true) := by
  obtain ⟨kb, hkb⟩ := kbresp_classified_total q
  constructor
  · rcases hb : answer_body llm q with ⟨r, tr⟩
    cases r with
    | ok s => exact ⟨s, by simp [answer_question, hb]⟩
    | error e =>
      exact ⟨apology_pre ++ kb ++ apology_post, by simp [answer_question, hb, hkb]⟩
  · intro e tr hb
    exact ⟨kb, hkb, by simp [answer_question, hb, hkb], containsSubstr_append _ _ _⟩

/-- Claim C2 witness: with `self.llm` never assigned, the body raises
`AttributeError` and `answer_question ""` returns the apology around the
knowledge-base response for the classified sport. -/
theorem answer_question_total_and_apology_witness :
    ∃ kb, get_knowledge_base_response "" (get_sport_from_question "") = some kb ∧
      answer_question LLMField.unset "" =
        (Except.ok (apology_pre ++ kb ++ apology_post), []) ∧
      containsSubstr (apology_pre ++ kb ++ apology_post) kb = true :=
  (answer_question_total_and_apology LLMField.unset "").2 "AttributeError: llm" [] rfl

/-- Claim C3, counterexample: the "Success Factors" boilerplate of the
generic synthesis has five items, not the four the claim states — the
basketball generic answer (produced e.g. for the empty question) contains
five bullet lines, all from the success-factors block. -/
theorem generic_success_factors_counterexample :
    get_knowledge_base_response "" "basketball" =
      some (generic_response "basketball" basketball_entry) ∧
    success_factors.length = 5 ∧
    bullet_lines (generic_response "basketball" basketball_entry) = 5 := by decide

/-- Claim C3 (amended, "four-item" corrected to "five-item"): for each table
sport and any question firing no trigger, the responder returns the generic
synthesis — header, comma-joined title-cased metrics, space-joined concept
explanations in insertion order, five-item success-factors block, in that
fixed order — which contains the rendered full metric list and every concept
explanation as substrings and no other sport's metric. -/
theorem generic_synthesis_contents (sport q : String)
    (hs : sport = "basketball" ∨ sport = "football_nfl" ∨ sport = "tennis")
    (hq : (containsSubstr (py_lower q) "quarterback" && sport == "football_nfl") = false)
    (hr : (containsSubstr (py_lower q) "roland garros" && sport == "tennis") = false) :
    ∃ entry, (SPORTS_KNOWLEDGE.find? (fun p => p.1 == sport)).map (fun p => p.2) = some entry ∧
      get_knowledge_base_response q sport = some (generic_response sport entry) ∧
      containsSubstr (generic_response sport entry)
        (py_title (String.intercalate ", " entry.metrics)) = true ∧
      (∀ c ∈ entry.key_concepts, containsSubstr (generic_response sport entry) c.2 = true) ∧
      (∀ other ∈ SPORTS_KNOWLEDGE, other.1 ≠ sport →
        ∀ m ∈ other.2.metrics, containsSubstr (generic_response sport entry) m = false) ∧
      success_factors.length = 5 := by
  rcases hs with h | h | h <;> subst h
  · exact ⟨basketball_entry, rfl, kbresp_generic _ _ _ rfl hq hr,
      by decide, by decide, by decide, rfl⟩
  · exact ⟨football_nfl_entry, rfl, kbresp_generic _ _ _ rfl hq hr,
      by decide, by decide, by decide, rfl⟩
  · exact ⟨tennis_entry, rfl, kbresp_generic _ _ _ rfl hq hr,
      by decide, by decide, by decide, rfl⟩

/-- Claim C3 witness: the generic synthesis at sport `"basketball"` and the
non-trigger question `"hello"`. -/
theorem generic_synthesis_contents_witness :
    ∃ entry, (SPORTS_KNOWLEDGE.find? (fun p => p.1 == "basketball")).map (fun p => p.2) =
        some entry ∧
      get_knowledge_base_response "hello" "basketball" =
        some (generic_response "basketball" entry) ∧
      containsSubstr (generic_response "basketball" entry)
        (py_title (String.intercalate ", " entry.metrics)) = true ∧
      (∀ c ∈ entry.key_concepts,
        containsSubstr (generic_response "basketball" entry) c.2 = true) ∧
      (∀ other ∈ SPORTS_KNOWLEDGE, other.1 ≠ "basketball" →
        ∀ m ∈ other.2.metrics, containsSubstr (generic_response "basketball" entry) m = false) ∧
      success_factors.length = 5 :=
  generic_synthesis_contents "basketball" "hello" (Or.inl rfl) (by decide) (by decide)

/-- Claim C4: any question whose lower-cased text contains `"quarterback"`,
classified as football_nfl, gets exactly the fixed long-form quarterback
answer, whatever else the question contains. -/
theorem quarterback_trigger_exact (q : String)
    (h : containsSubstr (py_lower q) "quarterback" = true) :
    get_knowledge_base_response q "football_nfl" = some quarterback_answer :=
  kbresp_qb q h

/-- Claim C4 witness. -/
theorem quarterback_trigger_exact_witness :
    get_knowledge_base_response "What makes a good QUARTERBACK?" "football_nfl" =
      some quarterback_answer :=
  quarterback_trigger_exact "What makes a good QUARTERBACK?" (by decide)

/-- Claim C5: any question whose lower-cased text contains `"roland garros"`,
with sport tennis, gets exactly the fixed long-form Roland-Garros answer
(priority over the generic path); and because the quarterback rule is
checked first, a question containing both phrases with sport football_nfl
gets the quarterback answer. -/
theorem roland_garros_trigger_exact (q : String) :
    (containsSubstr (py_lower q) "roland garros" = true →
      get_knowledge_base_response q "tennis" = some roland_garros_answer) ∧
    (containsSubstr (py_lower q) "roland garros" = true →
      containsSubstr (py_lower q) "quarterback" = true →
      get_knowledge_base_response q "football_nfl" = some quarterback_answer) :=
  ⟨fun h => kbresp_rg q h, fun _ h => kbresp_qb q h⟩

/-- Claim C5 witness: case-insensitive match of the trigger phrase. -/
theorem roland_garros_trigger_exact_witness :
    get_knowledge_base_response "Tell me about Roland Garros" "tennis" =
      some roland_garros_answer :=
  (roland_garros_trigger_exact "Tell me about Roland Garros").1 (by decide)

/-- Claim C6: three consecutive connectivity failures leave the gateway
permanently disabled (`llm = None`) after sleeping 1s then 2s (`2 ** attempt`,
no sleep after the last attempt), with no exception escaping (`setup_llm` is
a total function of the probe outcomes); a non-connectivity failure — on the
first attempt, or after one connectivity retry — disables the gateway
immediately, with no further attempts and no further sleeps. -/
theorem setup_llm_backoff_and_disable (probe : Nat → AttemptOutcome)
    (invoke : String → Except String String) :
    (probe 0 = AttemptOutcome.connError → probe 1 = AttemptOutcome.connError →
      probe 2 = AttemptOutcome.connError →
      setup_llm probe invoke 3 = (LLMField.disabled, [1, 2])) ∧
    (probe 0 = AttemptOutcome.otherError →
      setup_llm probe invoke 3 = (LLMField.disabled, [])) ∧
    (probe 0 = AttemptOutcome.connError → probe 1 = AttemptOutcome.otherError →
      setup_llm probe invoke 3 = (LLMField.disabled, [1])) := by
  refine ⟨fun h0 h1 h2 => ?_, fun h0 => ?_, fun h0 h1 => ?_⟩
  · simp [setup_llm, setup_llm_loop, h0, h1, h2]
  · simp [setup_llm, setup_llm_loop, h0]
  · simp [setup_llm, setup_llm_loop, h0, h1]

/-- Claim C6 witness: a probe that always reports a connectivity failure. -/
theorem setup_llm_backoff_and_disable_witness :
    setup_llm (fun _ => AttemptOutcome.connError) (fun _ => Except.ok "") 3 =
      (LLMField.disabled, [1, 2]) :=
  (setup_llm_backoff_and_disable (fun _ => AttemptOutcome.connError)
    (fun _ => Except.ok "")).1 rfl rfl rfl

/-- Claim C7: with the gateway ready, `answer_question` invokes the remote
model exactly once, with the prompt
`"Answer this sports question about {sport}: {question}"`; on success it
returns the response content verbatim, and on any exception from that single
call it returns the knowledge-base response for the same question and sport
without calling the gateway again. -/
theorem ready_gateway_single_call (invoke : String → Except String String) (q : String) :
    ((answer_question (LLMField.ready invoke) q).2 =
      ["Answer this sports question about " ++ get_sport_from_question q ++ ": " ++ q]) ∧
    (∀ s, invoke ("Answer this sports question about " ++
        get_sport_from_question q ++ ": " ++ q) = Except.ok s →
      (answer_question (LLMField.ready invoke) q).1 = Except.ok s) ∧
    (∀ e, invoke ("Answer this sports question about " ++
        get_sport_from_question q ++ ": " ++ q) = Except.error e →
      ∃ kb, get_knowledge_base_response q (get_sport_from_question q) = some kb ∧
        (answer_question (LLMField.ready invoke) q).1 = Except.ok kb) := by
  obtain ⟨kb, hkb⟩ := kbresp_classified_total q
  cases hinv : invoke ("Answer this sports question about " ++
      get_sport_from_question q ++ ": " ++ q) with
  | ok s =>
    refine ⟨by simp [answer_question, answer_body, hinv], fun s2 h2 => ?_, fun e he => ?_⟩
    · cases h2
      simp [answer_question, answer_body, hinv]
    · cases he
  | error e =>
    refine ⟨by simp [answer_question, answer_body, hinv, hkb], fun s2 h2 => ?_, fun e2 he => ?_⟩
    · cases h2
    · exact ⟨kb, hkb, by simp [answer_question, answer_body, hinv, hkb]⟩

/-- Claim C7 witness: a ready gateway whose single call succeeds. -/
theorem ready_gateway_single_call_witness :
    (answer_question (LLMField.ready (fun _ => Except.ok "a reply")) "").1 =
      Except.ok "a reply" :=
  (ready_gateway_single_call (fun _ => Except.ok "a reply") "").2.1 "a reply" rfl

/-- Claim C8: the classifier is total with range inside the closed set
{basketball, football_nfl, tennis}; the empty string classifies as
basketball, and the pipeline (gateway disabled) then returns the generic
basketball synthesis without failing. -/
theorem classifier_total_and_empty_string :
    (∀ q, get_sport_from_question q = "basketball" ∨
      get_sport_from_question q = "football_nfl" ∨
      get_sport_from_question q = "tennis") ∧
    get_sport_from_question "" = "basketball" ∧
    answer_question LLMField.disabled "" =
      (Except.ok (generic_response "basketball" basketball_entry), []) :=
  ⟨get_sport_mem, by decide, rfl⟩

/-- Claim C9: the generic synthesis ignores the question: two questions that
both fire no trigger rule for the sport get the identical responder output. -/
theorem generic_response_question_independent (sport q1 q2 : String)
    (hs : sport = "basketball" ∨ sport = "football_nfl" ∨ sport = "tennis")
    (h1q : (containsSubstr (py_lower q1) "quarterback" && sport == "football_nfl") = false)
    (h1r : (containsSubstr (py_lower q1) "roland garros" && sport == "tennis") = false)
    (h2q : (containsSubstr (py_lower q2) "quarterback" && sport == "football_nfl") = false)
    (h2r : (containsSubstr (py_lower q2) "roland garros" && sport == "tennis") = false) :
    get_knowledge_base_response q1 sport = get_knowledge_base_response q2 sport := by
  rcases hs with h | h | h <;> subst h
  · rw [kbresp_generic q1 "basketball" basketball_entry rfl h1q h1r,
      kbresp_generic q2 "basketball" basketball_entry rfl h2q h2r]
  · rw [kbresp_generic q1 "football_nfl" football_nfl_entry rfl h1q h1r,
      kbresp_generic q2 "football_nfl" football_nfl_entry rfl h2q h2r]
  · rw [kbresp_generic q1 "tennis" tennis_entry rfl h1q h1r,
      kbresp_generic q2 "tennis" tennis_entry rfl h2q h2r]

/-- Claim C9 witness: two unrelated non-trigger questions about tennis. -/
theorem generic_response_question_independent_witness :
    get_knowledge_base_response "how do I serve?" "tennis" =
      get_knowledge_base_response "best players?" "tennis" :=
  generic_response_question_independent "tennis" "how do I serve?" "best players?"
    (Or.inr (Or.inr rfl)) (by decide) (by decide) (by decide) (by decide)

/-- Claim C10: every execution path of `setup_llm` (as called, with 3
attempts) ends with `self.llm` well-defined — bound to a model (`ready`) or
to `None` (`disabled`), never left unset — whatever the probe outcomes are;
consequently the `if self.llm:` check in `answer_question` never raises: the
body of the outer `try` returns normally on every question. -/
theorem setup_llm_state_welldefined (probe : Nat → AttemptOutcome)
    (invoke : String → Except String String) :
    ((setup_llm probe invoke 3).1 = LLMField.disabled ∨
      ∃ f, (setup_llm probe invoke 3).1 = LLMField.ready f) ∧
    (∀ q, ∃ s, (answer_body (setup_llm probe invoke 3).1 q).1 = Except.ok s) := by
  have h := setup_llm_loop_sets probe invoke LLMField.unset 3 0 (by omega)
  refine ⟨h, fun q => answer_body_ok _ q fun hc => ?_⟩
  rcases h with h | ⟨f, h⟩
  · have h3 : LLMField.unset = LLMField.disabled := by rw [← hc]; exact h
    exact LLMField.noConfusion h3
  · have h3 : LLMField.unset = LLMField.ready f := by rw [← hc]; exact h
    exact LLMField.noConfusion h3

end SportsQA
